import Mathlib

/-!
Shallow embedding of the MROJ online-judge request handlers
(`src/users/mod.rs` and `src/handler/jobs.rs`) and proofs about them.

The data store (sqlite behind `r2d2`) is modelled as explicit in-memory
lists passed through the functions; a possible store failure is modelled
by explicit `Bool` flags corresponding to the fallible `prepare` /
`execute` calls.  External collaborators that live outside the two
embedded source files (the `runner` and `contests` modules, `chrono`
parsing, serde query deserialization) are modelled from the spec where a
claim needs them; each such definition carries a doc comment saying so.
-/

namespace MROJ

/-- HTTP-level responses as produced by the `error_log` helpers
(`error_log::NOT_FOUND::webmsg` and friends) and by the handlers
themselves.  `ok` carries the body of a `200 OK`; `crash` models a panic
(an `unwrap` of an error in the source). -/
inductive Response where
  | ok (body : String)
  | notFound (msg : String)
  | invalidArgument (msg : String)
  | rateLimit (msg : String)
  | external (msg : String)
  | crash (msg : String)
  deriving DecidableEq, Repr

/-- Single-quote character, used verbatim in some source error messages. -/
def sq : String := ⟨[Char.ofNat 39]⟩

/-! ## The identifier allocator (`Ids`) under interleaved callers

`create_user` (src/users/mod.rs lines 99-100) obtains an id with

  let user_id: u32 = ids.lock().await.usersid;
  ids.lock().await.usersid += 1;

i.e. the read of the counter and the increment of the counter are two
separate critical sections: the lock is released between the two
statements.  We model one allocator call as the two atomic steps `read`
(record the current counter value as the issued id) and `incr` (bump the
counter); a concurrent execution is an interleaving of the two-step
programs of the participating tasks. -/

/-- One atomic step of an allocator caller: `read tid` is the first lock
acquisition (the caller records the current counter as its issued id),
`incr tid` is the second (the counter is incremented). -/
inductive AllocStep where
  | read (tid : Nat)
  | incr (tid : Nat)
  deriving DecidableEq, Repr

/-- Task id a step belongs to. -/
def tidOf : AllocStep → Nat
  | .read t => t
  | .incr t => t

/-- Shared allocator state: the counter plus the log of issued ids, as
pairs (task, issued id) in issue order. -/
structure AllocState where
  counter : Nat
  issued : List (Nat × Nat)
  deriving DecidableEq, Repr

/-- Effect of one atomic step on the shared state. -/
def allocStep (s : AllocState) : AllocStep → AllocState
  | .read t => { s with issued := s.issued ++ [(t, s.counter)] }
  | .incr _ => { s with counter := s.counter + 1 }

/-- Run a schedule (a fully interleaved sequence of atomic steps) from
counter 0. -/
def runAlloc (l : List AllocStep) : AllocState :=
  l.foldl allocStep ⟨0, []⟩

/-- The per-task program of one allocator call: first read, then
increment — exactly the two lock acquisitions in `create_user`. -/
def threadProg (t : Nat) : List AllocStep := [.read t, .incr t]

/-- `l` is a valid interleaving of the allocator-call programs of tasks
`0, ..., n-1`: every step belongs to one of the tasks and the steps of
each task, in order, are exactly its program. -/
def IsSchedule (n : Nat) (l : List AllocStep) : Prop :=
  (∀ s ∈ l, tidOf s < n) ∧
  (∀ t < n, l.filter (fun s => tidOf s == t) = threadProg t)

instance (n : Nat) (l : List AllocStep) : Decidable (IsSchedule n l) := by
  unfold IsSchedule; infer_instance

/-- The schedule in which both tasks perform their read before either
performs its increment.  Both lock acquisitions succeed in turn, so this
is a legal execution of the source under two concurrent requests. -/
def schedule0 : List AllocStep := [.read 0, .read 1, .incr 0, .incr 1]

/-! ## Users module (`src/users/mod.rs`) -/

/-- Row of the `users` table / the `SerdeUser` struct. -/
structure SerdeUser where
  id : Nat
  name : String
  deriving DecidableEq, Repr

/-- `user_exists` (src/users/mod.rs lines 66-74).  `dbFail` models the
failure of `data.prepare`: on that failure the source returns `true`,
i.e. it reports the user as existing. -/
def user_exists (dbFail : Bool) (store : List SerdeUser) (user_name : String) : Bool :=
  if dbFail then true
  else store.any (fun u => u.name == user_name)

/-- Model of the serialized JSON body of a user (serde_json pretty
printing, opaque to the claims). -/
def renderUser (u : SerdeUser) : String :=
  "id: " ++ toString u.id ++ ", name: " ++ u.name

/-- `get_user` (src/users/mod.rs lines 44-64): store failure is an
`External` error, an absent id is `NotFound`, otherwise the row. -/
def get_user (dbFail : Bool) (store : List SerdeUser) (user_id : Nat) :
    Except Response SerdeUser :=
  if dbFail then .error (.external "Database Error.")
  else
    match store.find? (fun u => u.id == user_id) with
    | some u => .ok u
    | Option.none => .error (.notFound ("User " ++ toString user_id ++ " not found."))

/-- `update_user` (src/users/mod.rs lines 76-94).  Returns the response
together with the store after the call. -/
def update_user (dbFail : Bool) (store : List SerdeUser) (user_id : Nat)
    (user_name : String) : Response × List SerdeUser :=
  match get_user dbFail store user_id with
  | .error e => (e, store)
  | .ok user =>
    if user_name ≠ user.name then
      if user_exists dbFail store user_name then
        (.invalidArgument ("User name " ++ sq ++ user_name ++ sq ++ " already exists."),
         store)
      else
        (.ok (renderUser { user with name := user_name }),
         store.map (fun u => if u.id == user_id then { u with name := user_name } else u))
    else
      (.ok (renderUser { user with name := user_name }), store)

/-- `create_user` (src/users/mod.rs lines 96-113).  `usersid` is the
current allocator counter; `dbFail` models a failing `prepare` inside
the `user_exists` uniqueness check, `insertFail` a failing `INSERT`.
Returns (result, counter after the call, store after the call); note the
counter is advanced before any check is made, exactly as in the source. -/
def create_user (dbFail insertFail : Bool) (usersid : Nat) (store : List SerdeUser)
    (user_name : String) :
    Except Response (SerdeUser × Nat) × Nat × List SerdeUser :=
  let user_id := usersid
  let usersid := usersid + 1
  if user_exists dbFail store user_name then
    (.error (.invalidArgument ("User name " ++ sq ++ user_name ++ sq ++ " already exists.")),
     usersid, store)
  else if insertFail then
    (.error (.external "Database Error."), usersid, store)
  else
    (.ok (⟨user_id, user_name⟩, user_id), usersid, store ++ [⟨user_id, user_name⟩])

/-! ## The submission-admission handler `post_job` (`src/handler/jobs.rs`) -/

/-- One configured language (`config.languages` entry). -/
structure Language where
  name : String
  deriving DecidableEq, Repr

/-- One configured problem (`config.problems` entry); only the id is
consulted by the handler. -/
structure ConfigProblem where
  id : Nat
  deriving DecidableEq, Repr

/-- The relevant part of the loaded configuration. -/
structure Config where
  languages : List Language
  problems : List ConfigProblem
  deriving DecidableEq, Repr

/-- Row of the `contests` table as used by `post_job`. -/
structure Contest where
  id : Nat
  name : String
  fromTime : String
  toTime : String
  problem_ids : List Nat
  user_ids : List Nat
  submission_limit : Nat
  deriving DecidableEq, Repr

/-- Row of the `submission` table as consulted by the rate-limit count. -/
structure Submission where
  user_id : Nat
  problem_id : Nat
  contest_id : Nat
  deriving DecidableEq, Repr

/-- Body of `POST /jobs`. -/
structure PostJob where
  source_code : String
  language : String
  user_id : Nat
  contest_id : Nat
  problem_id : Nat
  deriving DecidableEq, Repr

/-- Environment a `post_job` call runs in: the configuration, the ids of
the existing users (a `users::get_user` lookup succeeds exactly for
these, the store being healthy), the contests table, the submission
table and the current wall-clock timestamp (`Utc::now()` formatted with
the fixed-width format). -/
structure Env where
  config : Config
  users : List Nat
  contests : List Contest
  submissions : List Submission
  now : String
  deriving Repr

/-- `contests::contest_exists`: a row with the id exists. -/
def contest_exists (e : Env) (cid : Nat) : Bool :=
  e.contests.any (fun c => c.id == cid)

/-- `contests::get_contest`: the row with the id, if any. -/
def get_contest (e : Env) (cid : Nat) : Option Contest :=
  e.contests.find? (fun c => c.id == cid)

/-- The `SELECT COUNT(*) FROM submission WHERE user_id = .. AND
problem_id = .. AND contest_id = ..` of the rate-limit check. -/
def submission_count (e : Env) (uid pid cid : Nat) : Nat :=
  (e.submissions.filter
    (fun s => s.user_id == uid && s.problem_id == pid && s.contest_id == cid)).length

/-- Check 1 of `post_job`: the language is in the catalog. -/
def langOk (e : Env) (b : PostJob) : Bool :=
  (e.config.languages.map (fun l => l.name)).contains b.language

/-- Check 2 of `post_job`: the problem id is in the catalog. -/
def probOk (e : Env) (b : PostJob) : Bool :=
  (e.config.problems.map (fun p => p.id)).contains b.problem_id

/-- Check 3 of `post_job`: the user exists. -/
def userOk (e : Env) (b : PostJob) : Bool :=
  e.users.contains b.user_id

/-- Observable outcome of `post_job`: either a rejection with the
response the handler returns, or admission (control reaches
`runner::start`, which queues and dispatches the job), or a panic (the
`unwrap` of `get_contest`, unreachable after the existence check). -/
inductive PostJobResult where
  | rejected (r : Response)
  | admitted
  | crashed
  deriving DecidableEq, Repr

/-- The admission part of `post_job` (src/handler/jobs.rs lines 87-181),
transcribed check for check: language, problem, user, contest existence
(message formatting `body.user_id`, as in the source), contest
membership, problem-in-contest, then — only when `submission_limit ≠ 0`
— the rate-limit count and the two time-window comparisons (string
comparison on the fixed-width timestamps, as in the source). -/
def post_job (e : Env) (b : PostJob) : PostJobResult :=
  if langOk e b = false then
    .rejected (.notFound ("Language " ++ b.language ++ " no found."))
  else if probOk e b = false then
    .rejected (.notFound ("Problem with id(" ++ toString b.problem_id ++ ") not found."))
  else if userOk e b = false then
    .rejected (.notFound ("User with id(" ++ toString b.user_id ++ ") not found."))
  else if b.contest_id ≠ 0 ∧ contest_exists e b.contest_id = false then
    .rejected (.notFound ("Contest with id(" ++ toString b.user_id ++ ") not found."))
  else if b.contest_id ≠ 0 then
    match get_contest e b.contest_id with
    | Option.none => .crashed
    | some contest =>
      if contest.user_ids.contains b.user_id = false then
        .rejected (.invalidArgument ("User " ++ toString b.user_id ++
          " is not registered in contest " ++ toString b.contest_id ++ "."))
      else if contest.problem_ids.contains b.problem_id = false then
        .rejected (.invalidArgument ("Problem " ++ toString b.problem_id ++
          " is not in contest " ++ toString b.contest_id ++ "."))
      else if contest.submission_limit ≠ 0 then
        if contest.submission_limit ≤ submission_count e b.user_id b.problem_id b.contest_id then
          .rejected (.rateLimit "Too many submissions.")
        else if e.now < contest.fromTime then
          .rejected (.invalidArgument "The contest has not started yet.")
        else if contest.toTime < e.now then
          .rejected (.invalidArgument "The contest has already finished.")
        else .admitted
      else .admitted
  else .admitted

/-! ## The job-listing handler `get_jobs` (`src/handler/jobs.rs` lines 198-233) -/

/-- Query parameters of `GET /jobs` after the query-string has been
deserialized (the `JobsFilter` struct); `fromTime` / `toTime` are the
`from` / `to` parameters. -/
structure JobsFilter where
  user_id : Option Nat
  user_name : Option String
  contest_id : Option Nat
  problem_id : Option Nat
  language : Option String
  fromTime : Option String
  toTime : Option String
  state : Option String
  result : Option String
  deriving Repr

/-- A bound parameter is bad when it is present and fails the timestamp
parse (`NaiveDateTime::parse_from_str` with the fixed-width format,
abstracted as the `parse` argument). -/
def badBound (parse : String → Bool) : Option String → Bool
  | some s => !(parse s)
  | Option.none => false

/-- The timestamp-validation part of `get_jobs` (lines 218-232): a
present but unparsable `from` or `to` short-circuits to `200 OK` with
body `[]`; otherwise control reaches `runner::get_jobs`, abstracted as
`rest` (which serializes the matching jobs on success and may also
surface a store failure). -/
def get_jobs (parse : String → Bool) (rest : JobsFilter → Response)
    (f : JobsFilter) : Response :=
  if badBound parse f.fromTime then .ok "[]"
  else if badBound parse f.toTime then .ok "[]"
  else rest f

/-- Modelled from the spec: an executable check of the fixed-width
timestamp format YYYY-MM-DDTHH:MM:SS.sssZ (the chrono format string
`%Y-%m-%dT%H:%M:%S%.3fZ` in the source; chrono additionally validates
calendar ranges, which only makes more strings fail).  Used as a
concrete instance of the abstract `parse` argument. -/
def parseTimestamp (s : String) : Bool :=
  let cs := s.toList
  cs.length == 24 &&
  (List.range 24).all (fun i =>
    let c := cs.getD i 'x'
    match i with
    | 4 | 7 => c == '-'
    | 10 => c == 'T'
    | 13 | 16 => c == ':'
    | 19 => c == '.'
    | 23 => c == 'Z'
    | _ => c.isDigit)

/-- A `runner::get_jobs` continuation that fails: used to witness that a
bad bound short-circuits before the store is ever consulted. -/
def extRest : JobsFilter → Response := fun _ => .external "Database Error."

/-! ## The rejudge handler `rejudge_job_by_id` (`src/handler/jobs.rs` lines 235-276) -/

/-- Job lifecycle states. -/
inductive JobState where
  | queued
  | running
  | finished
  deriving DecidableEq, Repr

/-- Persisted job record, as far as the rejudge path observes it: the
id, the lifecycle state and the (opaque, here numeric) result score when
finished. -/
structure Job where
  id : Nat
  state : JobState
  score : Option Nat
  deriving DecidableEq, Repr

/-- State touched by the rejudge handler: `jobsid` is the jobs counter
of the shared `Ids` (the next id the allocator will issue — the job
allocator follows the same issue-then-increment discipline as
`create_user` in src/users/mod.rs, so ids `0, ..., jobsid-1` have been
issued), plus the job store. -/
structure JobsState where
  jobsid : Nat
  jobs : List Job
  deriving DecidableEq, Repr

/-- Modelled from the spec: the highest id ever issued for jobs.  With
the issue-then-increment allocator the issued ids are
`0, ..., jobsid - 1`, so the highest issued id is `jobsid - 1`. -/
def highest_issued (s : JobsState) : Nat := s.jobsid - 1

/-- Modelled from the spec: `runner::reset_job` clears the result and
sets the state back to Queued; an id absent from the store is
`NotFound`. -/
def reset_job (s : JobsState) (job_id : Nat) : Except Response JobsState :=
  if s.jobs.any (fun j => j.id == job_id) then
    .ok { s with jobs := s.jobs.map (fun j =>
      if j.id == job_id then { j with state := .queued, score := Option.none } else j) }
  else .error (.notFound ("Job " ++ toString job_id ++ " not found."))

/-- Modelled from the spec: `runner::get_a_job` reads one job record. -/
def get_a_job (s : JobsState) (job_id : Nat) : Except Response Job :=
  match s.jobs.find? (fun j => j.id == job_id) with
  | some j => .ok j
  | Option.none => .error (.notFound ("Job " ++ toString job_id ++ " not found."))

/-- Model of the serialized JSON body of a job snapshot (opaque to the
claims). -/
def renderJob (j : Job) : String := "job " ++ toString j.id

/-- `rejudge_job_by_id` (lines 235-276), after the path segment has
parsed as a number: the guard `job_id >= ids.jobsid` rejects with
`NotFound` before anything is touched; otherwise the job is reset, read
back and returned (the subsequent background redispatch is outside the
model).  Returns the response together with the job state after the
call. -/
def rejudge_job_by_id (s : JobsState) (job_id : Nat) : Response × JobsState :=
  if job_id ≥ s.jobsid then
    (.notFound ("Job " ++ toString job_id ++ " not found."), s)
  else
    match reset_job s job_id with
    | .error e => (e, s)
    | .ok s1 =>
      match get_a_job s1 job_id with
      | .error e => (e, s1)
      | .ok j => (.ok (renderJob j), s1)

/-! ## The ranklist handler `get_ranklist` (`src/handler/jobs.rs` lines 358-395) -/

/-- Scoring rules; the `#[default]` variant in the source is `highest`. -/
inductive ScoringRule where
  | latest
  | highest
  deriving DecidableEq, Repr

/-- Tie breakers; the `#[default]` variant in the source is `none`. -/
inductive TieBreaker where
  | submission_time
  | submission_count
  | user_id
  | none
  deriving DecidableEq, Repr

/-- The raw (still textual) optional query parameters of
`GET /contests/{id}/ranklist`. -/
structure RawRankQuery where
  scoring_rule : Option String
  tie_breaker : Option String
  deriving Repr

/-- Deserialization of one `ScoringRule` value: the derived serde
`Deserialize` of a fieldless enum accepts exactly the variant names. -/
def parse_scoring_rule : String → Option ScoringRule
  | "latest" => some .latest
  | "highest" => some .highest
  | _ => Option.none

/-- Deserialization of one `TieBreaker` value. -/
def parse_tie_breaker : String → Option TieBreaker
  | "submission_time" => some .submission_time
  | "submission_count" => some .submission_count
  | "user_id" => some .user_id
  | "none" => some .none
  | _ => Option.none

/-- The `SerdeRankFilter` struct: each field optional. -/
structure SerdeRankFilter where
  scoring_rule : Option ScoringRule
  tie_breaker : Option TieBreaker
  deriving DecidableEq, Repr

/-- The `RankFilter` struct: the effective, defaulted configuration. -/
structure RankFilter where
  scoring_rule : ScoringRule
  tie_breaker : TieBreaker
  deriving DecidableEq, Repr

/-- Deserialize one optional field: an absent parameter is `None`, a
present parameter must name a variant, otherwise the whole
deserialization fails. -/
def parseOptField {α : Type} (p : String → Option α) : Option String → Option (Option α)
  | Option.none => some Option.none
  | some s => (p s).map some

/-- `web::Query::<SerdeRankFilter>::from_query`: both optional fields
must deserialize, otherwise the query parse fails (derived `Deserialize`
on a fieldless enum rejects unknown variant names). -/
def from_query (q : RawRankQuery) : Option SerdeRankFilter :=
  match parseOptField parse_scoring_rule q.scoring_rule,
        parseOptField parse_tie_breaker q.tie_breaker with
  | some a, some b => some ⟨a, b⟩
  | _, _ => Option.none

/-- `get_ranklist` (lines 358-395), after the contest id has parsed: a
failed query parse is `InvalidArgument "Invalid argument."`; otherwise
the filter starts from `RankFilter::default()` (`highest`, `none`) and
each present field overrides its default, and control reaches
`contests::get_ranklist`, abstracted as `compute`. -/
def get_ranklist (compute : RankFilter → Nat → Response) (q : RawRankQuery)
    (cid : Nat) : Response :=
  match from_query q with
  | Option.none => .invalidArgument "Invalid argument."
  | some flt =>
    compute ⟨flt.scoring_rule.getD .highest, flt.tie_breaker.getD .none⟩ cid

/-- A constant ranklist computation, used as a concrete instance of the
abstract `compute` argument. -/
def computeConst : RankFilter → Nat → Response := fun _ _ => .ok "ranklist"

/-! ## Concrete fixtures used by the witnesses -/

/-- Contest fixture with a two-submission limit. -/
def cB : Contest :=
  { id := 3, name := "demo", fromTime := "2024-01-01T00:00:00.000Z",
    toTime := "2024-12-31T23:59:59.000Z", problem_ids := [2], user_ids := [1],
    submission_limit := 2 }

/-- Contest fixture with an unlimited (`0`) submission limit. -/
def cA : Contest := { cB with submission_limit := 0 }

/-- Environment with `k` prior submissions by user 1 to problem 2 in
contest 3, inside the contest window. -/
def envB (k : Nat) : Env :=
  { config := { languages := [⟨"Rust"⟩], problems := [⟨2⟩] },
    users := [1], contests := [cB],
    submissions := List.replicate k ⟨1, 2, 3⟩,
    now := "2024-06-01T12:00:00.000Z" }

/-- Environment for the unlimited contest: five prior submissions and a
clock far before the contest window. -/
def envA : Env := { envB 5 with contests := [cA], now := "1999" }

/-- Submission request fixture matching the contest fixtures. -/
def bodyB : PostJob :=
  { source_code := "code", language := "Rust", user_id := 1,
    contest_id := 3, problem_id := 2 }

/-- Environment with no users at all. -/
def envW : Env := { envB 0 with users := [] }

/-- Request whose language is not in the catalog (and whose user does
not exist in `envW`). -/
def bodyW : PostJob := { bodyB with language := "Haskell" }

/-- Environment whose user 7 exists but which has no contests. -/
def env9 : Env := { envB 0 with users := [7], contests := [] }

/-- Request by user 7 to the nonexistent contest 9. -/
def body9 : PostJob := { bodyB with contest_id := 9, user_id := 7 }

/-- Jobs filter whose `from` bound is not a timestamp. -/
def filterBadFrom : JobsFilter :=
  { user_id := Option.none, user_name := Option.none, contest_id := Option.none,
    problem_id := Option.none, language := Option.none, fromTime := some "not-a-date",
    toTime := Option.none, state := Option.none, result := Option.none }

/-- Job store after exactly one job (id 0) has been created and
finished: the jobs counter is 1 and the highest id ever issued is 0. -/
def jobsState0 : JobsState := ⟨1, [⟨0, .finished, some 100⟩]⟩

/-! ## Theorems -/

/-- Helper: a successful `get_contest` lookup implies `contest_exists`. -/
theorem contest_exists_of_get (e : Env) (cid : Nat) (c : Contest)
    (h : get_contest e cid = some c) : contest_exists e cid = true := by
  unfold get_contest at h
  have hm : c ∈ e.contests := List.mem_of_find?_eq_some h
  have hp : (c.id == cid) = true := by simpa using List.find?_some h
  unfold contest_exists
  rw [List.any_eq_true]
  exact ⟨c, hm, hp⟩

/-- C1: the identifier allocator reads the counter and increments it
under two separate lock acquisitions (`create_user`, src/users/mod.rs
lines 99-100), so it is not atomic: `schedule0` is a legal interleaving
of two concurrent allocator calls under which both callers are issued
id 0 — the claimed uniqueness under interleaved concurrent calls fails
on the code.  The remaining conjuncts show the part of the claim the
code does satisfy: a creation that fails (duplicate name) has already
consumed its id, the counter having advanced from 7 to 8. -/
theorem alloc_race_duplicate_ids :
    IsSchedule 2 schedule0
  ∧ (runAlloc schedule0).issued = [(0, 0), (1, 0)]
  ∧ (runAlloc schedule0).counter = 2
  ∧ (create_user false false 7 [⟨3, "bob"⟩] "bob").1 =
      .error (.invalidArgument ("User name " ++ sq ++ "bob" ++ sq ++ " already exists."))
  ∧ (create_user false false 7 [⟨3, "bob"⟩] "bob").2.1 = 8 := by
  exact ⟨by decide, rfl, rfl, rfl, rfl⟩

/-- C2: the admission checks of `post_job` run in the fixed order
language, problem, user, contest existence, contest membership,
problem-in-contest, rate limit, time window, and the handler
short-circuits at the first failing check; each conjunct pins the
response when the earlier checks pass and the named check fails,
independently of everything later — in particular a request with an
unknown language is rejected with the language error whatever the state
of the user check. -/
theorem post_job_check_order (e : Env) (b : PostJob) :
    (langOk e b = false →
      post_job e b = .rejected (.notFound ("Language " ++ b.language ++ " no found.")))
  ∧ (langOk e b = true → probOk e b = false →
      post_job e b = .rejected (.notFound
        ("Problem with id(" ++ toString b.problem_id ++ ") not found.")))
  ∧ (langOk e b = true → probOk e b = true → userOk e b = false →
      post_job e b = .rejected (.notFound
        ("User with id(" ++ toString b.user_id ++ ") not found.")))
  ∧ (langOk e b = true → probOk e b = true → userOk e b = true →
     b.contest_id ≠ 0 → contest_exists e b.contest_id = false →
      post_job e b = .rejected (.notFound
        ("Contest with id(" ++ toString b.user_id ++ ") not found.")))
  ∧ (∀ c, langOk e b = true → probOk e b = true → userOk e b = true →
     b.contest_id ≠ 0 → get_contest e b.contest_id = some c →
     b.user_id ∉ c.user_ids →
      post_job e b = .rejected (.invalidArgument ("User " ++ toString b.user_id ++
        " is not registered in contest " ++ toString b.contest_id ++ ".")))
  ∧ (∀ c, langOk e b = true → probOk e b = true → userOk e b = true →
     b.contest_id ≠ 0 → get_contest e b.contest_id = some c →
     b.user_id ∈ c.user_ids →
     b.problem_id ∉ c.problem_ids →
      post_job e b = .rejected (.invalidArgument ("Problem " ++ toString b.problem_id ++
        " is not in contest " ++ toString b.contest_id ++ ".")))
  ∧ (∀ c, langOk e b = true → probOk e b = true → userOk e b = true →
     b.contest_id ≠ 0 → get_contest e b.contest_id = some c →
     b.user_id ∈ c.user_ids →
     b.problem_id ∈ c.problem_ids →
     c.submission_limit ≠ 0 →
     c.submission_limit ≤ submission_count e b.user_id b.problem_id b.contest_id →
      post_job e b = .rejected (.rateLimit "Too many submissions."))
  ∧ (∀ c, langOk e b = true → probOk e b = true → userOk e b = true →
     b.contest_id ≠ 0 → get_contest e b.contest_id = some c →
     b.user_id ∈ c.user_ids →
     b.problem_id ∈ c.problem_ids →
     c.submission_limit ≠ 0 →
     submission_count e b.user_id b.problem_id b.contest_id < c.submission_limit →
     e.now < c.fromTime →
      post_job e b = .rejected (.invalidArgument "The contest has not started yet."))
  ∧ (∀ c, langOk e b = true → probOk e b = true → userOk e b = true →
     b.contest_id ≠ 0 → get_contest e b.contest_id = some c →
     b.user_id ∈ c.user_ids →
     b.problem_id ∈ c.problem_ids →
     c.submission_limit ≠ 0 →
     submission_count e b.user_id b.problem_id b.contest_id < c.submission_limit →
     ¬ e.now < c.fromTime → c.toTime < e.now →
      post_job e b = .rejected (.invalidArgument "The contest has already finished."))
  ∧ (∀ c, langOk e b = true → probOk e b = true → userOk e b = true →
     b.contest_id ≠ 0 → get_contest e b.contest_id = some c →
     b.user_id ∈ c.user_ids →
     b.problem_id ∈ c.problem_ids →
     c.submission_limit ≠ 0 →
     submission_count e b.user_id b.problem_id b.contest_id < c.submission_limit →
     ¬ e.now < c.fromTime → ¬ c.toTime < e.now →
      post_job e b = .admitted)
  ∧ (langOk e b = true → probOk e b = true → userOk e b = true → b.contest_id = 0 →
      post_job e b = .admitted) := by
  refine ⟨?_, ?_, ?_, ?_, ?_, ?_, ?_, ?_, ?_, ?_, ?_⟩
  · intro h1
    simp [post_job, h1]
  · intro h1 h2
    simp [post_job, h1, h2]
  · intro h1 h2 h3
    simp [post_job, h1, h2, h3]
  · intro h1 h2 h3 h4 h5
    simp [post_job, h1, h2, h3, h4, h5]
  · intro c h1 h2 h3 h4 hc h5
    have hce := contest_exists_of_get e b.contest_id c hc
    simp [post_job, h1, h2, h3, h4, hce, hc, h5]
  · intro c h1 h2 h3 h4 hc h5 h6
    have hce := contest_exists_of_get e b.contest_id c hc
    simp [post_job, h1, h2, h3, h4, hce, hc, h5, h6]
  · intro c h1 h2 h3 h4 hc h5 h6 hl hge
    have hce := contest_exists_of_get e b.contest_id c hc
    simp [post_job, h1, h2, h3, h4, hce, hc, h5, h6, hl, hge]
  · intro c h1 h2 h3 h4 hc h5 h6 hl hlt hf
    have hce := contest_exists_of_get e b.contest_id c hc
    simp [post_job, h1, h2, h3, h4, hce, hc, h5, h6, hl, Nat.not_le.mpr hlt, hf]
  · intro c h1 h2 h3 h4 hc h5 h6 hl hlt hf ht
    have hce := contest_exists_of_get e b.contest_id c hc
    simp [post_job, h1, h2, h3, h4, hce, hc, h5, h6, hl, Nat.not_le.mpr hlt, hf, ht]
  · intro c h1 h2 h3 h4 hc h5 h6 hl hlt hf ht
    have hce := contest_exists_of_get e b.contest_id c hc
    simp [post_job, h1, h2, h3, h4, hce, hc, h5, h6, hl, Nat.not_le.mpr hlt, hf, ht]
  · intro h1 h2 h3 h4
    simp [post_job, h1, h2, h3, h4]

/-- C2 witness: in `envW` the request `bodyW` violates both the language
check and the user check; the response is the language error. -/
theorem post_job_check_order_witness :
    langOk envW bodyW = false
  ∧ userOk envW bodyW = false
  ∧ post_job envW bodyW =
      .rejected (.notFound ("Language " ++ bodyW.language ++ " no found.")) := by
  refine ⟨by decide, by decide, ?_⟩
  exact (post_job_check_order envW bodyW).1 (by decide)

/-- C3: when the contest's `submission_limit` is 0, `post_job` skips
both the rate-limit check and the time-window check — a request that
passes checks 1-6 is admitted whatever the number of prior submissions
and wherever the current time lies relative to the contest window. -/
theorem post_job_limit_zero_skips (e : Env) (b : PostJob) (c : Contest)
    (h1 : langOk e b = true) (h2 : probOk e b = true) (h3 : userOk e b = true)
    (h4 : b.contest_id ≠ 0) (hc : get_contest e b.contest_id = some c)
    (h5 : b.user_id ∈ c.user_ids) (h6 : b.problem_id ∈ c.problem_ids)
    (h0 : c.submission_limit = 0) :
    post_job e b = .admitted := by
  have hce := contest_exists_of_get e b.contest_id c hc
  simp [post_job, h1, h2, h3, h4, hce, hc, h5, h6, h0]

/-- C3 witness: in `envA` there are five prior submissions for the
triple and the clock is before the contest window, yet the request is
admitted because the contest's limit is 0. -/
theorem post_job_limit_zero_skips_witness :
    submission_count envA 1 2 3 = 5
  ∧ envA.now < cA.fromTime
  ∧ post_job envA bodyB = .admitted := by
  refine ⟨by decide, by rw [String.lt_iff_toList_lt] ; decide, ?_⟩
  exact post_job_limit_zero_skips envA bodyB cA (by decide) (by decide) (by decide)
    (by decide) (by decide) (by decide) (by decide) (by decide)

/-- C4: with a nonzero `submission_limit` and checks 1-6 passing, a
prior-submission count at or above the limit is rejected with
`RateLimit`, while a count below the limit together with a clock inside
the window is admitted. -/
theorem post_job_rate_limit (e : Env) (b : PostJob) (c : Contest)
    (h1 : langOk e b = true) (h2 : probOk e b = true) (h3 : userOk e b = true)
    (h4 : b.contest_id ≠ 0) (hc : get_contest e b.contest_id = some c)
    (h5 : b.user_id ∈ c.user_ids) (h6 : b.problem_id ∈ c.problem_ids)
    (hl : c.submission_limit ≠ 0) :
    (c.submission_limit ≤ submission_count e b.user_id b.problem_id b.contest_id →
      post_job e b = .rejected (.rateLimit "Too many submissions."))
  ∧ (submission_count e b.user_id b.problem_id b.contest_id < c.submission_limit →
     ¬ e.now < c.fromTime → ¬ c.toTime < e.now →
      post_job e b = .admitted) := by
  have hce := contest_exists_of_get e b.contest_id c hc
  constructor
  · intro hge
    simp [post_job, h1, h2, h3, h4, hce, hc, h5, h6, hl, hge]
  · intro hlt hf ht
    simp [post_job, h1, h2, h3, h4, hce, hc, h5, h6, hl, Nat.not_le.mpr hlt, hf, ht]

/-- C4 witness: with `submission_limit = 2` the submissions following 0
and 1 prior ones are admitted and the one following 2 prior ones is
rejected with `RateLimit` — the first two succeed, the third is
rejected. -/
theorem post_job_rate_limit_witness :
    cB.submission_limit = 2
  ∧ post_job (envB 0) bodyB = .admitted
  ∧ post_job (envB 1) bodyB = .admitted
  ∧ post_job (envB 2) bodyB = .rejected (.rateLimit "Too many submissions.") := by
  refine ⟨by decide, ?_, ?_, ?_⟩
  · exact (post_job_rate_limit (envB 0) bodyB cB (by decide) (by decide) (by decide)
      (by decide) (by decide) (by decide) (by decide) (by decide)).2
      (by decide) (by rw [String.lt_iff_toList_lt] ; decide)
      (by rw [String.lt_iff_toList_lt] ; decide)
  · exact (post_job_rate_limit (envB 1) bodyB cB (by decide) (by decide) (by decide)
      (by decide) (by decide) (by decide) (by decide) (by decide)).2
      (by decide) (by rw [String.lt_iff_toList_lt] ; decide)
      (by rw [String.lt_iff_toList_lt] ; decide)
  · exact (post_job_rate_limit (envB 2) bodyB cB (by decide) (by decide) (by decide)
      (by decide) (by decide) (by decide) (by decide) (by decide)).1 (by decide)

/-- C5: a `from` or `to` filter parameter that is present but fails the
timestamp parse makes `get_jobs` return `200 OK` with body `[]`,
whatever the parser, the rest of the filter and the downstream listing
(which never runs, so no error response can arise). -/
theorem get_jobs_bad_bound_empty (parse : String → Bool) (rest : JobsFilter → Response)
    (f : JobsFilter) :
    (∀ s, f.fromTime = some s → parse s = false → get_jobs parse rest f = .ok "[]")
  ∧ (∀ s, f.toTime = some s → parse s = false → get_jobs parse rest f = .ok "[]") := by
  constructor
  · intro s hs hp
    simp [get_jobs, badBound, hs, hp]
  · intro s hs hp
    unfold get_jobs
    by_cases hb : badBound parse f.fromTime
    · simp [hb]
    · simp [hb, badBound, hs, hp]

/-- C5 witness: `GET /jobs?from=not-a-date` yields `200 OK` with `[]`
even though the downstream listing would have failed with a store
error. -/
theorem get_jobs_bad_bound_empty_witness :
    get_jobs parseTimestamp extRest filterBadFrom = .ok "[]" :=
  (get_jobs_bad_bound_empty parseTimestamp extRest filterBadFrom).1
    "not-a-date" rfl (by decide)

/-- C6 counterexample: in `jobsState0` exactly one job id (0) has ever
been issued, so the highest id ever issued is 0 and the claim demands
that rejudging job 0 — an id not strictly below it — answer `NotFound`
without modification; the handler instead resets job 0 and returns it,
modifying the store. -/
theorem rejudge_guard_counterexample :
    ¬ (0 < highest_issued jobsState0)
  ∧ (rejudge_job_by_id jobsState0 0).1 = .ok (renderJob ⟨0, .queued, Option.none⟩)
  ∧ (rejudge_job_by_id jobsState0 0).2 ≠ jobsState0
  ∧ (rejudge_job_by_id jobsState0 0).2 = ⟨1, [⟨0, .queued, Option.none⟩]⟩ := by
  exact ⟨by decide, rfl, by decide, rfl⟩

/-- C6 (amended): the rejudge guard accepts exactly the ids strictly
below the jobs counter `jobsid` (the next id to issue), i.e. the ids up
to and including the highest id ever issued; every id at or above the
counter is answered `NotFound` and the job store is left untouched. -/
theorem rejudge_guard (s : JobsState) (job_id : Nat) (h : s.jobsid ≤ job_id) :
    rejudge_job_by_id s job_id =
      (.notFound ("Job " ++ toString job_id ++ " not found."), s) := by
  unfold rejudge_job_by_id
  rw [if_pos h]

/-- C6 witness: with a jobs counter of 2, rejudging id 5 is `NotFound`
and the (empty) store is unchanged. -/
theorem rejudge_guard_witness :
    rejudge_job_by_id ⟨2, []⟩ 5 =
      (.notFound ("Job " ++ toString (5 : Nat) ++ " not found."), ⟨2, []⟩) :=
  rejudge_guard ⟨2, []⟩ 5 (by decide)

/-- C7 (code bug): when the data store fails while `create_user` checks
name uniqueness (`user_exists` returns `true` on a failed `prepare`),
the caller receives the `InvalidArgument` duplicate-name error — not the
`External` error the spec promises — for every counter value, store
content and name; the id is still consumed. -/
theorem create_user_db_failure_masked (insertFail : Bool) (usersid : Nat)
    (store : List SerdeUser) (user_name : String) :
    (create_user true insertFail usersid store user_name).1 =
      .error (.invalidArgument
        ("User name " ++ sq ++ user_name ++ sq ++ " already exists."))
  ∧ (create_user true insertFail usersid store user_name).2.1 = usersid + 1 :=
  ⟨rfl, rfl⟩

/-- C8 counterexample: an unrecognized `scoring_rule` value does not
default silently — the whole request is rejected with
`InvalidArgument "Invalid argument."`, which differs from what the
defaulted computation would have produced. -/
theorem get_ranklist_unknown_value_rejected :
    get_ranklist computeConst ⟨some "bogus", Option.none⟩ 1 =
      .invalidArgument "Invalid argument."
  ∧ get_ranklist computeConst ⟨some "bogus", Option.none⟩ 1 ≠
      computeConst ⟨.highest, .none⟩ 1 := by
  exact ⟨rfl, by decide⟩

/-- C8 (amended): an absent `scoring_rule` defaults silently to
`highest` and an absent `tie_breaker` defaults silently to `none`, but a
present value of either parameter that names no variant makes the query
deserialization fail and the request is rejected with
`InvalidArgument "Invalid argument."` rather than defaulting. -/
theorem get_ranklist_defaults (compute : RankFilter → Nat → Response) (cid : Nat) :
    (get_ranklist compute ⟨Option.none, Option.none⟩ cid =
      compute ⟨.highest, .none⟩ cid)
  ∧ (∀ s os, parse_scoring_rule s = Option.none →
      get_ranklist compute ⟨some s, os⟩ cid = .invalidArgument "Invalid argument.")
  ∧ (∀ s osr, parse_tie_breaker s = Option.none →
      get_ranklist compute ⟨osr, some s⟩ cid = .invalidArgument "Invalid argument.") := by
  refine ⟨rfl, ?_, ?_⟩
  · intro s os h
    simp [get_ranklist, from_query, parseOptField, h]
  · intro s osr h
    cases hA : parseOptField parse_scoring_rule osr with
    | none => simp [get_ranklist, from_query, hA, parseOptField, h]
    | some a => simp [get_ranklist, from_query, hA, parseOptField, h]

/-- C8 witness: with both parameters absent the defaulted computation
runs; with an unrecognized `tie_breaker` the request is rejected. -/
theorem get_ranklist_defaults_witness :
    get_ranklist computeConst ⟨Option.none, Option.none⟩ 3 = .ok "ranklist"
  ∧ get_ranklist computeConst ⟨Option.none, some "weird"⟩ 3 =
      .invalidArgument "Invalid argument." := by
  constructor
  · exact (get_ranklist_defaults computeConst 3).1
  · exact (get_ranklist_defaults computeConst 3).2.2 "weird" Option.none (by decide)

/-- C9: when the contest id is nonzero and no such contest exists (the
earlier checks passing), the `NotFound` message of `post_job` embeds the
request's `user_id` — the source formats `body.user_id` into the contest
message — rather than the missing contest id. -/
theorem post_job_contest_msg_user_id (e : Env) (b : PostJob)
    (h1 : langOk e b = true) (h2 : probOk e b = true) (h3 : userOk e b = true)
    (h4 : b.contest_id ≠ 0) (h5 : contest_exists e b.contest_id = false) :
    post_job e b = .rejected (.notFound
      ("Contest with id(" ++ toString b.user_id ++ ") not found.")) := by
  simp [post_job, h1, h2, h3, h4, h5]

/-- C9 witness: user 7 submits to the nonexistent contest 9; the
response message names id 7, not id 9. -/
theorem post_job_contest_msg_user_id_witness :
    post_job env9 body9 = .rejected (.notFound "Contest with id(7) not found.") :=
  post_job_contest_msg_user_id env9 body9 (by decide) (by decide) (by decide)
    (by decide) (by decide)

/-- C10: a rename request carrying an existing user's id and its current
name succeeds with `200 OK` returning that user, and leaves the stored
user set unchanged — so the operation is idempotent — even though the
name is already taken (by the user itself). -/
theorem update_user_same_name_idempotent (store : List SerdeUser) (uid : Nat)
    (u : SerdeUser) (h : store.find? (fun x => x.id == uid) = some u) :
    update_user false store uid u.name = (.ok (renderUser u), store) := by
  unfold update_user get_user
  simp [h]

/-- C10 witness: renaming user 1 to its current name succeeds and the
store is unchanged. -/
theorem update_user_same_name_idempotent_witness :
    update_user false [⟨1, "alice"⟩] 1 "alice" =
      (.ok (renderUser ⟨1, "alice"⟩), [⟨1, "alice"⟩]) :=
  update_user_same_name_idempotent [⟨1, "alice"⟩] 1 ⟨1, "alice"⟩ rfl

end MROJ
